import Mathlib

/-!
Shallow embedding of the cluster-synchronization tool
(`src/sync-clusters.js`, which holds two concatenated variants, and
`src/unnamed/part_000`, the throttled variant), together with proofs
about the claims of its specification.

The repository moves documents from a source search cluster to a target
search cluster.  We model:

* JSON values (`JVal`) with object key order preserved, as JavaScript
  objects preserve insertion order, and `JSON.stringify` over them;
* the per-record transform of the `jsonPayload` field;
* the change detector `hasDocumentChanged`;
* the bulk-write retry loops of both retrying variants;
* the counter updates of the differential-sync variant;
* the scheduling structure of the perpetual loops.

External collaborators (the search clusters, `JSON.parse`) are
parameters: a fetch outcome, a parse function, a bulk-call outcome.
-/

/-- JSON values as JavaScript sees them: object fields keep their
insertion order (`String` escaping inside `stringify` is elided; all
concrete keys and strings used below contain no special characters). -/
inductive JVal where
  | jnull : JVal
  | jbool : Bool → JVal
  | jnum : Int → JVal
  | jstr : String → JVal
  | jarr : List JVal → JVal
  | jobj : List (String × JVal) → JVal
deriving Repr

mutual

/-- `JSON.stringify` on a `JVal`: objects serialize their fields in
stored order, so two structurally equal objects with different key
order produce different strings. -/
def stringify : JVal → String
  | .jnull => "null"
  | .jbool true => "true"
  | .jbool false => "false"
  | .jnum n => toString n
  | .jstr s => "\"" ++ s ++ "\""
  | .jarr xs => "[" ++ stringifyList xs ++ "]"
  | .jobj fs => "\x7b" ++ stringifyFields fs ++ "\x7d"

/-- Comma-separated serialization of an array's elements. -/
def stringifyList : List JVal → String
  | [] => ""
  | [x] => stringify x
  | x :: y :: xs => stringify x ++ "," ++ stringifyList (y :: xs)

/-- Comma-separated serialization of an object's fields, in order. -/
def stringifyFields : List (String × JVal) → String
  | [] => ""
  | [(k, v)] => "\"" ++ k ++ "\":" ++ stringify v
  | (k, v) :: g :: fs => "\"" ++ k ++ "\":" ++ stringify v ++ "," ++ stringifyFields (g :: fs)

end

mutual

/-- Structural (order-sensitive) Boolean equality on `JVal`. -/
def jvalBeq : JVal → JVal → Bool
  | .jnull, .jnull => true
  | .jbool a, .jbool b => a == b
  | .jnum a, .jnum b => a == b
  | .jstr a, .jstr b => a == b
  | .jarr xs, .jarr ys => jvalBeqList xs ys
  | .jobj fs, .jobj gs => jvalBeqFields fs gs
  | _, _ => false

/-- Elementwise equality of JSON arrays. -/
def jvalBeqList : List JVal → List JVal → Bool
  | [], [] => true
  | x :: xs, y :: ys => jvalBeq x y && jvalBeqList xs ys
  | _, _ => false

/-- Pairwise (order-sensitive) equality of object field lists. -/
def jvalBeqFields : List (String × JVal) → List (String × JVal) → Bool
  | [], [] => true
  | (k, v) :: fs, (l, w) :: gs => k == l && jvalBeq v w && jvalBeqFields fs gs
  | _, _ => false

end

/-- Byte-order comparison of key character lists (used only to pick a
canonical field order for the spec-side deep equality). -/
def keyLe : List Char → List Char → Bool
  | [], _ => true
  | _ :: _, [] => false
  | a :: as, b :: bs =>
      if a.toNat < b.toNat then true
      else if b.toNat < a.toNat then false
      else keyLe as bs

/-- Key order on strings via their character lists. -/
def strLe (a b : String) : Bool := keyLe a.data b.data

/-- Insert a field into a key-sorted field list (insertion sort step). -/
def insertField (p : String × JVal) : List (String × JVal) → List (String × JVal)
  | [] => [p]
  | q :: qs => if strLe p.1 q.1 then p :: q :: qs else q :: insertField p qs

/-- Sort an object's fields by key. -/
def sortFields (fs : List (String × JVal)) : List (String × JVal) :=
  fs.foldr insertField []

mutual

/-- Canonical form of a JSON value: object keys sorted at every level.
Used only to state the spec's notion of deep structural equality. -/
def canonJson : JVal → JVal
  | .jnull => .jnull
  | .jbool b => .jbool b
  | .jnum n => .jnum n
  | .jstr s => .jstr s
  | .jarr xs => .jarr (canonList xs)
  | .jobj fs => .jobj (sortFields (canonFields fs))

/-- Canonicalize each element of an array. -/
def canonList : List JVal → List JVal
  | [] => []
  | x :: xs => canonJson x :: canonList xs

/-- Canonicalize each field value of an object. -/
def canonFields : List (String × JVal) → List (String × JVal)
  | [] => []
  | (k, v) :: fs => (k, canonJson v) :: canonFields fs

end

/-- Deep structural equality as the SPEC words it (section 4.3): values
compare as data, with object key order irrelevant at every level.  This
definition follows the spec, not the source; the source's comparison is
`stringify` equality inside `hasDocumentChanged`. -/
def specDeepEq (a b : JVal) : Bool :=
  jvalBeq (canonJson a) (canonJson b)

/-- Outcome of `targetClient.get({ index, id })` as `hasDocumentChanged`
observes it (sync-clusters.js, differential variant, lines 278-297). -/
inductive GetResult where
  | found : JVal → GetResult      -- response arrived with `body._source`
  | foundNoSource : GetResult     -- response arrived without `body._source`
  | notFound : GetResult          -- error with `meta.statusCode === 404`
  | otherError : GetResult        -- any other fetch error (logged)
deriving Repr

/-- `hasDocumentChanged` (sync-clusters.js lines 278-297): on a
successful fetch with a `_source`, compare `JSON.stringify` of the
existing document with `JSON.stringify` of the candidate and return
`false` on string equality; every other path falls through to `true`
(404 returns `true` directly; other errors are logged, then `true`). -/
def hasDocumentChanged (res : GetResult) (newData : JVal) : Bool :=
  match res with
  | .found existingData =>
      if stringify existingData = stringify newData then false else true
  | .foundNoSource => true
  | .notFound => true
  | .otherError => true

/-! ## Source records and the per-record transform -/

/-- The `jsonPayload` field of a source record's `_source`: it may be
absent, hold a string (possibly empty — the empty string is falsy in
JavaScript, so the code skips it), or already hold a structured value. -/
inductive PayloadField where
  | absent : PayloadField
  | strVal : String → PayloadField
  | structured : JVal → PayloadField
deriving Repr

/-- A hit from the source scroll: `_id` plus its `_source`, split into
the `jsonPayload` field and the remaining fields (copied by value by the
spread `{ ...doc._source }`). -/
structure SourceRecord where
  id : String
  jsonPayload : PayloadField
  rest : List (String × JVal)
deriving Repr

/-- One entry of the bulk request of the unconditional variants: the
action header `{ index: { _index, _id } }` together with the source body
that follows it.  The JavaScript `operations` array holds two entries
per document; we bundle each header/body pair as one value. -/
structure BulkIndexOp (α : Type) where
  id : String
  doc : α
deriving Repr

/-- The transform applied to one document inside the bulk-building loop
(sync-clusters.js lines 126-136, part_000 lines 107-117): when
`source.jsonPayload` is truthy and a string, `JSON.parse` it; on parse
success the field becomes the structured value, on failure `failedDocs`
is incremented and the record is left unchanged (string payload kept).
`parse` stands for `JSON.parse`, `none` meaning a thrown error.
Returns the resulting record and the `failedDocs` increment (0 or 1). -/
def transformRecord (parse : String → Option JVal) (r : SourceRecord) :
    SourceRecord × Nat :=
  match r.jsonPayload with
  | .strVal s =>
      if s = "" then (r, 0)
      else
        match parse s with
        | some v => ({ r with jsonPayload := .structured v }, 0)
        | none => (r, 1)
  | _ => (r, 0)

/-- Whether the transform of a record fails: a nonempty string payload
that does not parse. -/
def transformFails (parse : String → Option JVal) (r : SourceRecord) : Bool :=
  match r.jsonPayload with
  | .strVal s => if s = "" then false else (parse s).isNone
  | _ => false

/-- The `documents.flatMap` of the unconditional variants
(sync-clusters.js lines 126-139, part_000 lines 107-120): EVERY document
contributes its `{ index: ... }, source` pair to `operations`, whether or
not its payload parsed; parse failures only bump `failedDocs`.  Returns
the operations list and the total `failedDocs` increment of the page. -/
def buildOperations (parse : String → Option JVal) (docs : List SourceRecord) :
    List (BulkIndexOp SourceRecord) × Nat :=
  docs.foldl
    (fun acc doc =>
      let tr := transformRecord parse doc
      (acc.1 ++ [⟨doc.id, tr.1⟩], acc.2 + tr.2))
    ([], 0)

/-! ## Target-state semantics of the unconditional bulk request -/

/-- The target collection, observed as a map from document identifier to
stored document.  Modelled from the spec: `bulkWrite` and upserts are
operations of the external target cluster (spec sections 6 and Glossary:
an upsert "inserts a document if absent or updates it in place if
present, keyed by identifier"). -/
def TargetState (α : Type) := String → Option α

/-- Effect of one unconditional `index` action on the target: the
document is stored at its identifier, replacing any previous value. -/
def applyIndexAction {α : Type} (t : TargetState α) (op : BulkIndexOp α) :
    TargetState α :=
  fun i => if i = op.id then some op.doc else t i

/-- Effect of a whole bulk request in unconditional-upsert mode: the
actions are applied in order. -/
def applyBulk {α : Type} (t : TargetState α) (ops : List (BulkIndexOp α)) :
    TargetState α :=
  ops.foldl applyIndexAction t

/-- The last document written to identifier `i` by a bulk request, if
any: the fold mirrors `applyBulk` action order. -/
def lastWrite {α : Type} (ops : List (BulkIndexOp α)) (i : String) : Option α :=
  ops.foldl (fun acc op => if i = op.id then some op.doc else acc) none

/-! ## The throttled variant's bulk retry loop (part_000, lines 122-149) -/

/-- Constants of part_000 (lines 7-10). -/
def BASE_DELAY : Nat := 10000

/-- Maximum backoff delay of part_000 (line 8). -/
def MAX_DELAY : Nat := 60000

/-- Retry ceiling of part_000 (line 10). -/
def MAX_RETRIES : Nat := 5

/-- Outcome of one `targetClient.bulk` call, as the retry loops observe
it: either the promise resolves (reporting some number of item-level
errors) or it rejects with a transport error. -/
inductive BulkCallResult where
  | ok : Nat → BulkCallResult        -- resolved; argument = item-level error count
  | transportError : BulkCallResult  -- rejected (caught as `bulkError`)
deriving Repr

/-- Result of running the part_000 retry loop on one batch. -/
structure RetryResult where
  success : Bool       -- the loop's `success` flag on exit
  attempts : Nat       -- number of `bulk` calls actually made
  waits : List Nat     -- delays awaited inside `catch`, in order
  failedDelta : Nat    -- increments of `failedDocs` made by the loop
  delay : Nat          -- value of the pass-level `delay` variable on exit
deriving Repr

/-- One unrolling of part_000's `while (!success && retries < MAX_RETRIES)`
(lines 125-143).  `outcome n` is the result of the n-th bulk call
(1-based); `made` counts calls already made, `fuel = MAX_RETRIES - retries`
bounds the remaining iterations.  On a resolved call the item-level error
count is added to `failedDocs` and the loop exits; on a rejected call
`retries` rises, the CURRENT delay is awaited, and the delay then doubles,
capped at `MAX_DELAY` (lines 136-141). -/
def bulkRetryAux (outcome : Nat → BulkCallResult) :
    Nat → Nat → List Nat → Nat → Nat → RetryResult
  | 0, made, waits, failedDelta, delay =>
      ⟨false, made, waits, failedDelta, delay⟩
  | fuel + 1, made, waits, failedDelta, delay =>
      match outcome (made + 1) with
      | .ok itemErrors =>
          ⟨true, made + 1, waits, failedDelta + itemErrors, delay⟩
      | .transportError =>
          bulkRetryAux outcome fuel (made + 1) (waits ++ [delay]) failedDelta
            (min (delay * 2) MAX_DELAY)

/-- The part_000 retry loop for one batch, entered with the pass-level
`delay` variable at `d` (the loop never resets it; at the start of a
pass it is `BASE_DELAY`, line 64). -/
def bulkRetryFrom (outcome : Nat → BulkCallResult) (d : Nat) : RetryResult :=
  bulkRetryAux outcome MAX_RETRIES 0 [] 0 d

/-- The part_000 retry loop for a batch at the start of whose write the
delay still sits at the base value. -/
def bulkRetry (outcome : Nat → BulkCallResult) : RetryResult :=
  bulkRetryFrom outcome BASE_DELAY

/-- A bulk-call oracle whose every call rejects with a transport error. -/
def allFail : Nat → BulkCallResult := fun _ => .transportError

/-! ## The first variant's bulk retry loop (sync-clusters.js, lines 141-166) -/

/-- Result of the first variant's retry block: either the batch was
applied (the `break` on line 155 was reached) or the block re-threw
`bulkError` after exhausting its retries (line 161), which aborts the
whole pass.  Both carry the `failedDocs` increments and the waits. -/
inductive V1RetryResult where
  | applied : Nat → List Nat → V1RetryResult  -- failedDocs delta, waits
  | thrown : Nat → List Nat → V1RetryResult   -- failedDocs delta, waits
deriving Repr

/-- One unrolling of `let retries = 3; while (retries > 0) { ... }`
(sync-clusters.js lines 141-166) for a batch of `docCount` documents.
On a resolved call, item errors are added to `failedDocs` and the loop
breaks.  On a rejected call `retries` is decremented; when it reaches 0
the whole batch is added to `failedDocs` and the error is re-thrown,
otherwise the loop waits `(3 - retries) * 1000` ms and retries. -/
def v1RetryAux (outcome : Nat → BulkCallResult) (docCount : Nat) :
    Nat → Nat → Nat → List Nat → V1RetryResult
  | 0, _made, failedDelta, waits => .thrown failedDelta waits
  | retries + 1, made, failedDelta, waits =>
      match outcome (made + 1) with
      | .ok itemErrors => .applied (failedDelta + itemErrors) waits
      | .transportError =>
          if retries = 0 then .thrown (failedDelta + docCount) waits
          else v1RetryAux outcome docCount retries (made + 1) failedDelta
            (waits ++ [(3 - retries) * 1000])

/-- The first variant's retry block (`retries` starts at 3, line 141). -/
def v1BulkRetry (outcome : Nat → BulkCallResult) (docCount : Nat) : V1RetryResult :=
  v1RetryAux outcome docCount 3 0 0 []

/-! ## Pacing delays across a pass (part_000, lines 103-155) -/

/-- One batch of a part_000 pass, reduced to what the delay logic sees:
the outcome of each of its bulk-call attempts. -/
structure P0Batch where
  outcome : Nat → BulkCallResult

/-- The pacing delays of a part_000 pass: for each page the retry loop
runs from the current `delay` (possibly raising it, lines 136-141) and
then `await setTimeout(delay)` paces before the next scroll fetch
(lines 147-149).  `delay` is a pass-level variable, never reset between
batches.  Returns the list of pacing delays, one per batch. -/
def p0PacingDelays : List P0Batch → Nat → List Nat
  | [], _ => []
  | b :: bs, d =>
      let r := bulkRetryFrom b.outcome d
      r.delay :: p0PacingDelays bs r.delay

/-! ## The differential variant's batch counters (sync-clusters.js, lines 352-407) -/

/-- The counters of the differential variant's pass (lines 334-337). -/
structure DiffCounters where
  processedDocs : Nat
  updatedDocs : Nat
  skippedDocs : Nat
  failedDocs : Nat
deriving Repr

/-- Outcome of the differential variant's single (unretried) bulk call:
either it resolves with one item per submitted action, each flagged with
whether `item.update.error` is set, or it rejects. -/
inductive DiffBulkOutcome where
  | okItems : List Bool → DiffBulkOutcome  -- per-item error flags, in order
  | thrown : DiffBulkOutcome
deriving Repr

/-- The per-document loop of the differential variant (lines 360-386):
a parse failure counts the document failed and skips it (`continue`);
an unchanged document (per `hasDocumentChanged`, here the oracle
`needsUpdate` standing for the awaited call) counts it skipped and skips
it; otherwise its update-with-upsert action pair is pushed.  Returns
(documents pushed, skipped delta, failed delta). -/
def diffStepDoc (parse : String → Option JVal) (needsUpdate : SourceRecord → Bool)
    (acc : List SourceRecord × Nat × Nat) (doc : SourceRecord) :
    List SourceRecord × Nat × Nat :=
  let tr := transformRecord parse doc
  if tr.2 = 1 then (acc.1, acc.2.1, acc.2.2 + 1)
  else if needsUpdate tr.1 then (acc.1 ++ [tr.1], acc.2.1, acc.2.2)
  else (acc.1, acc.2.1 + 1, acc.2.2)

/-- The whole per-document loop of a page. -/
def diffBuildOps (parse : String → Option JVal) (needsUpdate : SourceRecord → Bool)
    (docs : List SourceRecord) : List SourceRecord × Nat × Nat :=
  docs.foldl (diffStepDoc parse needsUpdate) ([], 0, 0)

/-- Tally of the differential variant's bulk response (lines 392-398):
each item with an error counts failed, every other item counts updated.
Returns (updated delta, failed delta). -/
def tallyStep (acc : Nat × Nat) (flag : Bool) : Nat × Nat :=
  if flag then (acc.1, acc.2 + 1) else (acc.1 + 1, acc.2)

/-- Tally of the whole response. -/
def diffTallyItems (flags : List Bool) : Nat × Nat :=
  flags.foldl tallyStep (0, 0)

/-- One whole batch of the differential variant (lines 352-407):
`processedDocs` rises by the page size up front (line 355); the
per-document loop builds the operations; when operations exist the bulk
call either has its items tallied (lines 392-398) or, on a transport
error, adds `operations.length / 2` — the number of submitted documents —
to `failedDocs` (line 402). -/
def diffBatchStep (parse : String → Option JVal) (needsUpdate : SourceRecord → Bool)
    (bulk : List SourceRecord → DiffBulkOutcome)
    (docs : List SourceRecord) (c : DiffCounters) : DiffCounters :=
  let built := diffBuildOps parse needsUpdate docs
  let ops := built.1
  let afterLoop : DiffCounters :=
    { c with
      processedDocs := c.processedDocs + docs.length
      skippedDocs := c.skippedDocs + built.2.1
      failedDocs := c.failedDocs + built.2.2 }
  if ops.length > 0 then
    match bulk ops with
    | .okItems flags =>
        let tally := diffTallyItems flags
        { afterLoop with
          updatedDocs := afterLoop.updatedDocs + tally.1
          failedDocs := afterLoop.failedDocs + tally.2 }
    | .thrown =>
        { afterLoop with failedDocs := afterLoop.failedDocs + ops.length }
  else afterLoop

/-! ## Scheduling structure of the perpetual loops -/

/-- Outcome of one orchestrator pass, as the loops distinguish them. -/
inductive PassOutcome where
  | success : PassOutcome       -- pass ran to the end of its body
  | zeroDocs : PassOutcome      -- source count came back 0
  | caughtError : PassOutcome   -- an error was thrown and caught
deriving Repr, DecidableEq

/-- The first variant's scheduler loop body (sync-clusters.js lines
207-216): `while (true) { try { await syncData } catch { log } ; wait }`
— every outcome reaches the wait and schedules another pass. -/
def v1MainContinues : PassOutcome → Bool := fun _ => true

/-- part_000's scheduler loop body (lines 170-176): `while (true) {
await syncData; wait 2h }`, with `syncData` catching all its errors
internally (lines 164-166) — every outcome schedules another pass. -/
def p0MainContinues : PassOutcome → Bool := fun _ => true

/-- One iteration of the differential variant's own perpetual loop
(sync-clusters.js lines 312-425): a zero source count logs
`'No documents to sync. Exiting...'` and RETURNS out of the `while
(true)` (lines 324-327), ending `syncData` — and with it the process,
since the top-level call (line 428) has no outer loop; any caught error
and any completed pass fall through to the 60-second wait and iterate
again (lines 418-424).  `true` means another pass is scheduled. -/
def diffLoopContinues : PassOutcome → Bool
  | .zeroDocs => false
  | _ => true

/-- Start times of the pass invocations of the first variant after `n`
scheduling rounds, when every pass succeeds and lasts `d` ms: a pass
starting at `s` completes at `s + d`, whereupon line 198
(`setTimeout(() => syncData(...), 5000)`) schedules a NEW invocation at
`s + d + 5000`, and — for the invocation the `main` loop was awaiting —
lines 210-215 schedule one more at the same instant.  Round `n` thus
starts `n + 1` simultaneous invocations. -/
def v1PassStarts (d : Nat) : Nat → List Nat
  | 0 => [0]
  | n + 1 =>
      (v1PassStarts d n).map (fun s => s + d + 5000) ++ [(n + 1) * (d + 5000)]

/-! ## Helper lemmas -/

/-- A structurally-equal pair of documents with fields in different key
order: the stored version. -/
def keyOrderDocA : JVal := .jobj [("x", .jnum 1), ("y", .jnum 2)]

/-- The candidate: same fields and values as `keyOrderDocA`, keys in the
opposite order. -/
def keyOrderDocB : JVal := .jobj [("y", .jnum 2), ("x", .jnum 1)]

/-- A `JSON.parse` stand-in that always throws. -/
def noParse : String → Option JVal := fun _ => none

/-- A source record whose `jsonPayload` is a nonempty undecodable string. -/
def badRecord : SourceRecord := ⟨"doc1", .strVal "not json", []⟩

/-- `transformRecord`'s failure increment is 1 exactly on the records
`transformFails` describes. -/
theorem transformRecord_snd (parse : String → Option JVal) (r : SourceRecord) :
    (transformRecord parse r).2 = if transformFails parse r then 1 else 0 := by
  rcases r with ⟨i, p, rest⟩
  cases p with
  | absent => simp [transformRecord, transformFails]
  | structured v => simp [transformRecord, transformFails]
  | strVal s =>
      by_cases hs : s = ""
      · simp [transformRecord, transformFails, hs]
      · cases hp : parse s <;>
          simp [transformRecord, transformFails, hs, hp]

/-- Accumulator form of `buildOperations`. -/
theorem buildOperations_aux (parse : String → Option JVal) :
    ∀ (docs : List SourceRecord) (ops0 : List (BulkIndexOp SourceRecord)) (n0 : Nat),
      docs.foldl
        (fun acc doc =>
          let tr := transformRecord parse doc
          (acc.1 ++ [⟨doc.id, tr.1⟩], acc.2 + tr.2)) (ops0, n0) =
      (ops0 ++ docs.map (fun d => ⟨d.id, (transformRecord parse d).1⟩),
       n0 + (docs.map (fun d => (transformRecord parse d).2)).sum) := by
  intro docs
  induction docs with
  | nil => intro ops0 n0; simp
  | cons d docs ih =>
      intro ops0 n0
      simp only [List.foldl_cons, List.map_cons, List.sum_cons]
      rw [ih]
      simp [List.append_assoc, Nat.add_assoc]

/-- `buildOperations` in closed form: one operation per document, and the
failure count is the sum of per-document failure increments. -/
theorem buildOperations_eq (parse : String → Option JVal) (docs : List SourceRecord) :
    buildOperations parse docs =
      (docs.map (fun d => ⟨d.id, (transformRecord parse d).1⟩),
       (docs.map (fun d => (transformRecord parse d).2)).sum) := by
  have h := buildOperations_aux parse docs [] 0
  simpa [buildOperations] using h

/-- Summing 0/1 indicators counts the filtered elements. -/
theorem sum_ite_eq_length_filter {α : Type} (p : α → Bool) :
    ∀ l : List α, (l.map (fun a => if p a then 1 else 0)).sum = (l.filter p).length := by
  intro l
  induction l with
  | nil => simp
  | cons a l ih =>
      cases h : p a <;> simp [List.filter_cons, h, ih, Nat.add_comm]

/-- Reading a bulk-applied target at one identifier: the last action
written to that identifier wins, otherwise the prior state shows through. -/
theorem foldl_lastWrite_acc {α : Type} (i : String) :
    ∀ (ops : List (BulkIndexOp α)) (a : Option α),
      ops.foldl (fun acc op => if i = op.id then some op.doc else acc) a =
        (lastWrite ops i).elim a some := by
  intro ops
  induction ops with
  | nil => intro a; simp [lastWrite]
  | cons op ops ih =>
      intro a
      have h1 : lastWrite (op :: ops) i =
          (lastWrite ops i).elim (if i = op.id then some op.doc else none) some := by
        simp only [lastWrite, List.foldl_cons]
        exact ih (if i = op.id then some op.doc else none)
      simp only [List.foldl_cons]
      rw [ih (if i = op.id then some op.doc else a), h1]
      cases lastWrite ops i with
      | none => by_cases hc : i = op.id <;> simp [hc]
      | some d => simp

/-- Pointwise description of `applyBulk`. -/
theorem applyBulk_apply {α : Type} :
    ∀ (ops : List (BulkIndexOp α)) (t : TargetState α) (i : String),
      applyBulk t ops i = (lastWrite ops i).elim (t i) some := by
  intro ops
  induction ops with
  | nil => intro t i; simp [applyBulk, lastWrite]
  | cons op ops ih =>
      intro t i
      have hacc := foldl_lastWrite_acc i ops
        (if i = op.id then some op.doc else none)
      simp only [applyBulk, List.foldl_cons] at *
      rw [ih (applyIndexAction t op) i]
      have hlw : lastWrite (op :: ops) i =
          (lastWrite ops i).elim (if i = op.id then some op.doc else none) some := by
        simp only [lastWrite, List.foldl_cons]
        exact hacc
      rw [hlw]
      cases h : lastWrite ops i with
      | none => by_cases hc : i = op.id <;> simp [hc, applyIndexAction]
      | some d => simp

/-! ## Claim theorems -/

/-- C1 (amended): in the unconditional variants, a page's bulk request
contains one operation for EVERY record — a record whose string
`jsonPayload` fails to decode is counted as failed but is not excluded;
the failure count equals the number of records with a nonempty,
undecodable string payload. -/
theorem C1_transform_counts_but_keeps_failed
    (parse : String → Option JVal) (docs : List SourceRecord) :
    (buildOperations parse docs).1 =
        docs.map (fun d => ⟨d.id, (transformRecord parse d).1⟩) ∧
    (buildOperations parse docs).2 =
        (docs.filter (fun d => transformFails parse d)).length := by
  rw [buildOperations_eq]
  refine ⟨rfl, ?_⟩
  simp only [transformRecord_snd]
  exact sum_ite_eq_length_filter (fun d => transformFails parse d) docs

/-- C1 counterexample: a one-record page whose `jsonPayload` cannot be
decoded yields failure count 1, yet the bulk request still holds one
operation — the failed record is NOT excluded from the batch, contrary
to the claim that the bulk request contains only the successfully
transformed records. -/
theorem C1_failed_record_still_in_batch :
    (buildOperations noParse [badRecord]).2 = 1 ∧
    (buildOperations noParse [badRecord]).1.length = 1 ∧
    ¬ ((buildOperations noParse [badRecord]).1.length = 0) := by
  refine ⟨rfl, rfl, by decide⟩

/-- C5 (amended): `hasDocumentChanged` returns `false` exactly when the
fetch succeeded with a stored `_source` whose `JSON.stringify`
serialization equals the candidate's; a missing document, any other
fetch error, and any serialization difference all yield `true`.  Deep
structural equality is NOT sufficient for `false`, since objects with
the same fields in a different key order serialize differently. -/
theorem C5_hasChanged_iff_serialization_equal
    (res : GetResult) (cand : JVal) :
    hasDocumentChanged res cand = false ↔
      ∃ stored, res = .found stored ∧ stringify stored = stringify cand := by
  cases res with
  | found stored =>
      by_cases h : stringify stored = stringify cand <;>
        simp [hasDocumentChanged, h]
  | foundNoSource => simp [hasDocumentChanged]
  | notFound => simp [hasDocumentChanged]
  | otherError => simp [hasDocumentChanged]

/-- C5 counterexample: `keyOrderDocA` and `keyOrderDocB` are deep
structurally equal (same fields, different key order), yet
`hasDocumentChanged` reports the candidate as changed — the claim says
it must return `false` for every deep-structurally-equal candidate. -/
theorem C5_deep_equal_but_reported_changed :
    specDeepEq keyOrderDocA keyOrderDocB = true ∧
    hasDocumentChanged (.found keyOrderDocA) keyOrderDocB = true := by
  refine ⟨by decide, by decide⟩

/-- C6 (confirmed): in unconditional-upsert mode every bulk action is an
identifier-keyed store, so applying the same batch to the target twice
leaves exactly the state of applying it once. -/
theorem C6_bulk_replay_idempotent {α : Type}
    (t : TargetState α) (ops : List (BulkIndexOp α)) :
    applyBulk (applyBulk t ops) ops = applyBulk t ops := by
  funext i
  rw [applyBulk_apply, applyBulk_apply]
  cases h : lastWrite ops i <;> simp

/-- C10 (confirmed): `hasDocumentChanged` decides by comparing
`JSON.stringify` serializations — on a successful fetch it returns
`false` exactly when the two serializations are identical strings — and
for the deep-structurally-equal pair `keyOrderDocA`/`keyOrderDocB`,
whose fields serialize in a different key order, it returns `true`. -/
theorem C10_serialization_comparison :
    (∀ stored cand : JVal,
        (hasDocumentChanged (.found stored) cand = false ↔
          stringify stored = stringify cand)) ∧
    specDeepEq keyOrderDocA keyOrderDocB = true ∧
    stringify keyOrderDocA ≠ stringify keyOrderDocB ∧
    hasDocumentChanged (.found keyOrderDocA) keyOrderDocB = true := by
  refine ⟨fun stored cand => ?_, by decide, by decide, by decide⟩
  by_cases h : stringify stored = stringify cand <;>
    simp [hasDocumentChanged, h]

/-- The backoff delay after `k` doublings from `d`, each capped at
`MAX_DELAY` (part_000 line 141). -/
def doubleIter : Nat → Nat → Nat
  | d, 0 => d
  | d, k + 1 => doubleIter (min (d * 2) MAX_DELAY) k

/-- The delays awaited during `k` consecutive transport failures,
starting from delay `d`: the current delay is awaited, THEN doubled. -/
def waitsFrom : Nat → Nat → List Nat
  | _, 0 => []
  | d, k + 1 => d :: waitsFrom (min (d * 2) MAX_DELAY) k

/-- Unfolding `bulkRetryAux` one step on a resolved bulk call. -/
theorem bulkRetryAux_ok (outcome : Nat → BulkCallResult)
    (fuel made : Nat) (waits : List Nat) (f d e : Nat)
    (h : outcome (made + 1) = .ok e) :
    bulkRetryAux outcome (fuel + 1) made waits f d =
      ⟨true, made + 1, waits, f + e, d⟩ := by
  simp [bulkRetryAux, h]

/-- Unfolding `bulkRetryAux` one step on a rejected bulk call. -/
theorem bulkRetryAux_err (outcome : Nat → BulkCallResult)
    (fuel made : Nat) (waits : List Nat) (f d : Nat)
    (h : outcome (made + 1) = .transportError) :
    bulkRetryAux outcome (fuel + 1) made waits f d =
      bulkRetryAux outcome fuel (made + 1) (waits ++ [d]) f
        (min (d * 2) MAX_DELAY) := by
  simp [bulkRetryAux, h]

/-- Running the retry loop across `k` consecutive transport failures:
the attempt counter advances by `k`, the awaited delays accumulate as
`waitsFrom`, and the delay variable doubles `k` times. -/
theorem bulkRetryAux_allFail (outcome : Nat → BulkCallResult) :
    ∀ (k fuel made : Nat) (waits : List Nat) (f d : Nat),
      k ≤ fuel →
      (∀ j, made < j → j ≤ made + k → outcome j = .transportError) →
      bulkRetryAux outcome fuel made waits f d =
        bulkRetryAux outcome (fuel - k) (made + k) (waits ++ waitsFrom d k) f
          (doubleIter d k) := by
  intro k
  induction k with
  | zero => intro fuel made waits f d _ _; simp [waitsFrom, doubleIter]
  | succ k ih =>
      intro fuel made waits f d hk hfail
      match fuel, hk with
      | fuel + 1, hk =>
        have h1 : outcome (made + 1) = .transportError :=
          hfail (made + 1) (Nat.lt_succ_self made) (by omega)
        rw [bulkRetryAux_err outcome fuel made waits f d h1]
        rw [ih fuel (made + 1) (waits ++ [d]) f (min (d * 2) MAX_DELAY)
          (by omega) (fun j hj1 hj2 => hfail j (by omega) (by omega))]
        have hfuel : fuel + 1 - (k + 1) = fuel - k := by omega
        have hmade : made + 1 + k = made + (k + 1) := by omega
        have hwaits : (waits ++ [d]) ++ waitsFrom (min (d * 2) MAX_DELAY) k =
            waits ++ waitsFrom d (k + 1) := by
          simp [waitsFrom, List.append_assoc]
        rw [hfuel, hmade, hwaits]
        rfl

/-- The retry loop only ever appends to the waits it was handed. -/
theorem bulkRetryAux_waits_extend (outcome : Nat → BulkCallResult) :
    ∀ (fuel made : Nat) (waits : List Nat) (f d : Nat),
      ∃ t, (bulkRetryAux outcome fuel made waits f d).waits = waits ++ t := by
  intro fuel
  induction fuel with
  | zero => intro made waits f d; exact ⟨[], by simp [bulkRetryAux]⟩
  | succ fuel ih =>
      intro made waits f d
      cases h : outcome (made + 1) with
      | ok e => exact ⟨[], by rw [bulkRetryAux_ok outcome fuel made waits f d e h]; simp⟩
      | transportError =>
          obtain ⟨t, ht⟩ := ih (made + 1) (waits ++ [d]) f (min (d * 2) MAX_DELAY)
          refine ⟨d :: t, ?_⟩
          rw [bulkRetryAux_err outcome fuel made waits f d h, ht]
          simp

/-- `waitsFrom` in closed form. -/
theorem waitsFrom_eq : ∀ (k d : Nat), waitsFrom d k = (List.range k).map (doubleIter d) := by
  intro k
  induction k with
  | zero => intro d; simp [waitsFrom]
  | succ k ih =>
      intro d
      rw [waitsFrom, ih (min (d * 2) MAX_DELAY), List.range_succ_eq_map]
      simp only [List.map_cons, List.map_map]
      exact rfl

/-- Length of the accumulated waits. -/
theorem waitsFrom_length (k d : Nat) : (waitsFrom d k).length = k := by
  rw [waitsFrom_eq]; simp

/-- C3 (amended): in the throttled variant, for a batch that begins with
the pass-level delay still at `baseDelay`, after `k` consecutive
transport failures (1 ≤ k ≤ maxRetries) the delay waited after the k-th
failure — the wait before attempt k+1 when one occurs — equals
`min(baseDelay * 2^(k-1), maxDelay)`: the first wait is `baseDelay`
itself, since the code awaits the CURRENT delay and only then doubles. -/
theorem C3_backoff_delay_formula (k : Nat) (outcome : Nat → BulkCallResult)
    (hk1 : 1 ≤ k) (hk : k ≤ MAX_RETRIES)
    (hfail : ∀ j, 1 ≤ j → j ≤ k → outcome j = .transportError) :
    (bulkRetry outcome).waits.get? (k - 1) =
      some (min (BASE_DELAY * 2 ^ (k - 1)) MAX_DELAY) := by
  have hrun := bulkRetryAux_allFail outcome k MAX_RETRIES 0 [] 0 BASE_DELAY hk
    (fun j hj1 hj2 => hfail j (by omega) (by omega))
  obtain ⟨t, ht⟩ := bulkRetryAux_waits_extend outcome (MAX_RETRIES - k) (0 + k)
    ([] ++ waitsFrom BASE_DELAY k) 0 (doubleIter BASE_DELAY k)
  have hwaits : (bulkRetry outcome).waits = waitsFrom BASE_DELAY k ++ t := by
    rw [bulkRetry, bulkRetryFrom, hrun, ht]; simp
  rw [hwaits, waitsFrom_eq]
  have hlt : k - 1 < ((List.range k).map (doubleIter BASE_DELAY)).length := by
    simp; omega
  rw [List.get?_append hlt, List.get?_map]
  have hrange : (List.range k).get? (k - 1) = some (k - 1) := by
    rw [List.get?_range]; omega
  rw [hrange]
  have hM : k ≤ 5 := by simpa [MAX_RETRIES] using hk
  interval_cases k <;> simp <;> rfl

/-- C3 witness: with every bulk call failing, after k = 2 failures the
wait recorded before attempt 3 is `min(baseDelay * 2^1, maxDelay)`,
i.e. 20000 ms. -/
theorem C3_backoff_delay_formula_witness :
    (bulkRetry allFail).waits.get? (2 - 1) =
      some (min (BASE_DELAY * 2 ^ (2 - 1)) MAX_DELAY) :=
  C3_backoff_delay_formula 2 allFail (by decide) (by decide)
    (fun _ _ _ => rfl)

/-- C3 counterexample: the claim's formula `min(baseDelay * 2^k,
maxDelay)` fails at k = 1: after the first transport failure the code
waits the still-undoubled `baseDelay` (10000 ms), not
`min(baseDelay * 2, maxDelay)` = 20000 ms. -/
theorem C3_first_wait_is_base_not_doubled :
    (bulkRetry allFail).waits.get? 0 = some BASE_DELAY ∧
    ¬ ((bulkRetry allFail).waits.get? 0 =
        some (min (BASE_DELAY * 2 ^ 1) MAX_DELAY)) := by
  refine ⟨rfl, by decide⟩

/-- C4 (amended): after `maxRetries` consecutive transport failures no
further bulk call is made for the batch, in either retrying variant.
In the throttled variant the loop exits with `success = false`, the
pass simply continues — but the batch's documents are NOT added to the
failed count (no increment happens on exhaustion).  In the first
sync-clusters variant all `docCount` documents ARE counted failed and
the cause logged, but the error is re-thrown, aborting the pass. -/
theorem C4_retry_exhaustion (outcome : Nat → BulkCallResult) (docCount : Nat)
    (hfail : ∀ j, 1 ≤ j → j ≤ MAX_RETRIES → outcome j = .transportError) :
    (bulkRetry outcome).attempts = MAX_RETRIES ∧
    (bulkRetry outcome).success = false ∧
    (bulkRetry outcome).failedDelta = 0 ∧
    v1BulkRetry outcome docCount = .thrown docCount [1000, 2000] := by
  have hrun := bulkRetryAux_allFail outcome MAX_RETRIES MAX_RETRIES 0 [] 0 BASE_DELAY
    (Nat.le_refl _) (fun j hj1 hj2 => hfail j (by omega) (by omega))
  have hret : bulkRetry outcome =
      ⟨false, MAX_RETRIES, waitsFrom BASE_DELAY MAX_RETRIES, 0,
        doubleIter BASE_DELAY MAX_RETRIES⟩ := by
    rw [bulkRetry, bulkRetryFrom, hrun]
    simp [bulkRetryAux]
  have h1 : outcome 1 = .transportError := hfail 1 (by omega) (by decide)
  have h2 : outcome 2 = .transportError := hfail 2 (by omega) (by decide)
  have h3 : outcome 3 = .transportError := hfail 3 (by omega) (by decide)
  refine ⟨by rw [hret], by rw [hret], by rw [hret], ?_⟩
  show v1RetryAux outcome docCount 3 0 0 [] = .thrown docCount [1000, 2000]
  rw [show (3 : Nat) = 2 + 1 from rfl, v1RetryAux, h1]
  simp only [show ¬(2 = 0) from by decide, if_false]
  rw [show (2 : Nat) = 1 + 1 from rfl, v1RetryAux, h2]
  simp only [show ¬(1 = 0) from by decide, if_false]
  rw [show (1 : Nat) = 0 + 1 from rfl, v1RetryAux, h3]
  norm_num

/-- C4 witness: with every bulk call failing and a 3-document batch,
the throttled variant makes exactly `maxRetries` attempts, exits
unsuccessfully with failed count increment 0, and the first variant
re-throws after counting all 3 documents failed. -/
theorem C4_retry_exhaustion_witness :
    (bulkRetry allFail).attempts = MAX_RETRIES ∧
    (bulkRetry allFail).success = false ∧
    (bulkRetry allFail).failedDelta = 0 ∧
    v1BulkRetry allFail 3 = .thrown 3 [1000, 2000] :=
  C4_retry_exhaustion allFail 3 (fun _ _ _ => rfl)

/-- C4 counterexample: a 3-document batch whose bulk call fails all
`maxRetries` times leaves the throttled variant's failed-count
increment at 0, not 3 — the exhausted batch's documents are never
counted as failed there; and the first variant re-throws (aborting the
pass) instead of continuing. -/
theorem C4_exhausted_batch_not_counted :
    (bulkRetry allFail).success = false ∧
    (bulkRetry allFail).failedDelta = 0 ∧
    ¬ ((bulkRetry allFail).failedDelta = 3) ∧
    v1BulkRetry allFail 3 = .thrown 3 [1000, 2000] := by
  refine ⟨rfl, rfl, by decide, rfl⟩

/-- A batch whose first bulk call resolves cleanly. -/
def okBatch : P0Batch := ⟨fun _ => .ok 0⟩

/-- A batch whose first bulk call rejects and whose second resolves. -/
def failingThenOkBatch : P0Batch :=
  ⟨fun n => if n = 1 then .transportError else .ok 0⟩

/-- C8 (amended): the pacing delay awaited after each batch is the
CURRENT pass-level delay variable; it equals `baseDelay` for every
batch only while no transport failure has yet occurred in the pass —
in particular, when every batch's first bulk call succeeds, every
pacing delay of the pass equals `baseDelay`.  After a failure the
doubled delay persists (it is never reset), so later pacing exceeds
`baseDelay`. -/
theorem C8_pacing_base_when_no_failures (bs : List P0Batch)
    (hok : ∀ b ∈ bs, ∃ e, b.outcome 1 = .ok e) :
    p0PacingDelays bs BASE_DELAY = List.replicate bs.length BASE_DELAY := by
  induction bs with
  | nil => simp [p0PacingDelays]
  | cons b bs ih =>
      obtain ⟨e, he⟩ := hok b (List.mem_cons_self b bs)
      have hstep : bulkRetryFrom b.outcome BASE_DELAY =
          ⟨true, 1, [], 0 + e, BASE_DELAY⟩ :=
        bulkRetryAux_ok b.outcome 4 0 [] 0 BASE_DELAY e he
      have hrest : p0PacingDelays bs BASE_DELAY =
          List.replicate bs.length BASE_DELAY :=
        ih (fun b hb => hok b (List.mem_cons_of_mem _ hb))
      show (bulkRetryFrom b.outcome BASE_DELAY).delay ::
          p0PacingDelays bs (bulkRetryFrom b.outcome BASE_DELAY).delay =
        List.replicate (b :: bs).length BASE_DELAY
      rw [hstep]
      simp only [List.length_cons, List.replicate_succ]
      exact congrArg _ hrest

/-- C8 witness: a two-batch pass whose bulk calls all succeed first
try paces both batches at exactly `baseDelay`. -/
theorem C8_pacing_base_witness :
    p0PacingDelays [okBatch, okBatch] BASE_DELAY =
      List.replicate 2 BASE_DELAY :=
  C8_pacing_base_when_no_failures [okBatch, okBatch]
    (by
      intro b hb
      have hb2 : b = okBatch ∨ b = okBatch := by simpa using hb
      rcases hb2 with h | h <;> exact ⟨0, by rw [h]; rfl⟩)

/-- C8 counterexample: when batch 1 suffers one transport failure
before succeeding, the delay variable doubles to 20000 and is never
reset, so the pacing waited between the two (ultimately successful)
batch writes is 20000 ms, not `baseDelay` = 10000 ms as claimed. -/
theorem C8_pacing_not_base_after_failure :
    p0PacingDelays [failingThenOkBatch, okBatch] BASE_DELAY = [20000, 20000] ∧
    ¬ (p0PacingDelays [failingThenOkBatch, okBatch] BASE_DELAY =
        List.replicate 2 BASE_DELAY) := by
  refine ⟨by decide, by decide⟩


/-- Each document moves exactly one of the three buckets up by one. -/
theorem diffStepDoc_sum (parse : String → Option JVal)
    (needsUpdate : SourceRecord → Bool)
    (acc : List SourceRecord × Nat × Nat) (d : SourceRecord) :
    (diffStepDoc parse needsUpdate acc d).1.length +
      (diffStepDoc parse needsUpdate acc d).2.1 +
      (diffStepDoc parse needsUpdate acc d).2.2 =
    acc.1.length + acc.2.1 + acc.2.2 + 1 := by
  rcases acc with ⟨ops, s, f⟩
  by_cases h1 : (transformRecord parse d).2 = 1
  · simp [diffStepDoc, h1]
    omega
  · by_cases h2 : needsUpdate (transformRecord parse d).1
    · simp [diffStepDoc, h1, h2]
      omega
    · simp [diffStepDoc, h1, h2]
      omega

/-- Accumulator form of the per-document loop's bucket sums. -/
theorem diffBuildOps_aux (parse : String → Option JVal)
    (needsUpdate : SourceRecord → Bool) :
    ∀ (docs : List SourceRecord) (acc : List SourceRecord × Nat × Nat),
      ((docs.foldl (diffStepDoc parse needsUpdate) acc).1.length +
        (docs.foldl (diffStepDoc parse needsUpdate) acc).2.1 +
        (docs.foldl (diffStepDoc parse needsUpdate) acc).2.2) =
      acc.1.length + acc.2.1 + acc.2.2 + docs.length := by
  intro docs
  induction docs with
  | nil => intro acc; simp
  | cons d docs ih =>
      intro acc
      simp only [List.foldl_cons]
      rw [ih (diffStepDoc parse needsUpdate acc d),
        diffStepDoc_sum parse needsUpdate acc d]
      simp
      omega

/-- Every document of a page lands in exactly one bucket of
`diffBuildOps`: pushed, skipped, or failed. -/
theorem diffBuildOps_sum (parse : String → Option JVal)
    (needsUpdate : SourceRecord → Bool) (docs : List SourceRecord) :
    (diffBuildOps parse needsUpdate docs).1.length +
      (diffBuildOps parse needsUpdate docs).2.1 +
      (diffBuildOps parse needsUpdate docs).2.2 = docs.length := by
  have h := diffBuildOps_aux parse needsUpdate docs ([], 0, 0)
  simpa [diffBuildOps] using h

/-- Each bulk response item raises exactly one of the two tallies. -/
theorem tallyStep_sum (acc : Nat × Nat) (flag : Bool) :
    (tallyStep acc flag).1 + (tallyStep acc flag).2 = acc.1 + acc.2 + 1 := by
  cases flag <;> simp [tallyStep] <;> omega

/-- Accumulator form of the bulk-item tally. -/
theorem diffTallyItems_aux :
    ∀ (flags : List Bool) (acc : Nat × Nat),
      ((flags.foldl tallyStep acc).1 + (flags.foldl tallyStep acc).2) =
        acc.1 + acc.2 + flags.length := by
  intro flags
  induction flags with
  | nil => intro acc; simp
  | cons flag flags ih =>
      intro acc
      simp only [List.foldl_cons]
      rw [ih (tallyStep acc flag), tallyStep_sum acc flag]
      simp
      omega

/-- Every bulk response item counts as updated or as failed. -/
theorem diffTallyItems_sum (flags : List Bool) :
    (diffTallyItems flags).1 + (diffTallyItems flags).2 = flags.length := by
  have h := diffTallyItems_aux flags (0, 0)
  simpa [diffTallyItems] using h

/-- C9 (confirmed): in the differential variant, provided the target's
bulk response carries one item per submitted action, each completed
batch preserves `processedDocs = updatedDocs + skippedDocs +
failedDocs`: every document of the page is counted exactly once —
transform-failed, skipped-unchanged, or updated/failed per its bulk
item (a thrown bulk call counting all submitted documents failed) —
while `processedDocs` rises by the page size. -/
theorem C9_counters_conservation
    (parse : String → Option JVal) (needsUpdate : SourceRecord → Bool)
    (bulk : List SourceRecord → DiffBulkOutcome)
    (docs : List SourceRecord) (c : DiffCounters)
    (hwf : ∀ ops flags, bulk ops = .okItems flags → flags.length = ops.length)
    (hc : c.processedDocs = c.updatedDocs + c.skippedDocs + c.failedDocs) :
    (diffBatchStep parse needsUpdate bulk docs c).processedDocs =
      (diffBatchStep parse needsUpdate bulk docs c).updatedDocs +
        (diffBatchStep parse needsUpdate bulk docs c).skippedDocs +
        (diffBatchStep parse needsUpdate bulk docs c).failedDocs ∧
    (diffBatchStep parse needsUpdate bulk docs c).processedDocs =
      c.processedDocs + docs.length := by
  have hsum := diffBuildOps_sum parse needsUpdate docs
  by_cases hops : (diffBuildOps parse needsUpdate docs).1.length > 0
  · cases hb : bulk (diffBuildOps parse needsUpdate docs).1 with
    | okItems flags =>
        have hlen := hwf _ flags hb
        have htally := diffTallyItems_sum flags
        constructor <;> simp [diffBatchStep, hops, hb] <;> omega
    | thrown =>
        constructor <;> simp [diffBatchStep, hops, hb] <;> omega
  · constructor <;> simp [diffBatchStep, hops] <;> omega

/-- A record without a `jsonPayload` field. -/
def plainRecord : SourceRecord := ⟨"doc2", .absent, []⟩

/-- A well-formed bulk collaborator: one error-free item per action. -/
def wfBulk : List SourceRecord → DiffBulkOutcome :=
  fun ops => .okItems (List.replicate ops.length false)

/-- Counters at pass start (sync-clusters.js lines 334-337). -/
def zeroCounters : DiffCounters := ⟨0, 0, 0, 0⟩

/-- C9 witness: a concrete two-document batch — one undecodable
payload, one plain record needing an update — keeps the counters
balanced and advances `processedDocs` by 2. -/
theorem C9_counters_conservation_witness :
    (diffBatchStep noParse (fun _ => true) wfBulk [badRecord, plainRecord]
        zeroCounters).processedDocs =
      (diffBatchStep noParse (fun _ => true) wfBulk [badRecord, plainRecord]
          zeroCounters).updatedDocs +
        (diffBatchStep noParse (fun _ => true) wfBulk [badRecord, plainRecord]
            zeroCounters).skippedDocs +
        (diffBatchStep noParse (fun _ => true) wfBulk [badRecord, plainRecord]
            zeroCounters).failedDocs ∧
    (diffBatchStep noParse (fun _ => true) wfBulk [badRecord, plainRecord]
        zeroCounters).processedDocs =
      zeroCounters.processedDocs + [badRecord, plainRecord].length :=
  C9_counters_conservation noParse (fun _ => true) wfBulk [badRecord, plainRecord]
    zeroCounters
    (by
      intro ops flags h
      have hflags : List.replicate ops.length false = flags := by
        simpa [wfBulk] using h
      rw [← hflags]
      simp)
    rfl

/-- C7 (amended): the first variant's `main` loop and part_000's `main`
loop schedule another pass after every outcome; the differential
variant's own perpetual loop schedules another pass after a successful
pass and after a caught error, but a zero source-document count makes
it return out of the loop — ending the process, since its top-level
call has no outer loop. -/
theorem C7_scheduler_continuation :
    (∀ o, v1MainContinues o = true) ∧
    (∀ o, p0MainContinues o = true) ∧
    (∀ o, diffLoopContinues o = true ↔ o ≠ PassOutcome.zeroDocs) := by
  refine ⟨fun o => rfl, fun o => rfl, fun o => ?_⟩
  cases o <;> simp [diffLoopContinues]

/-- C7 counterexample: on a zero source-document count the differential
variant's loop does NOT schedule another pass (the claim says every
outcome schedules one). -/
theorem C7_zero_docs_stops_rescheduling :
    diffLoopContinues PassOutcome.zeroDocs = false ∧
    ¬ (diffLoopContinues PassOutcome.zeroDocs = true) := by
  refine ⟨rfl, by decide⟩

/-- C2: with passes of duration 1000 ms, one scheduling round after a
successful pass, TWO invocations of `syncData` start at the same
instant 6000 — one scheduled by the `setTimeout` self-restart inside
`syncData` (line 198), one by the `main` loop (lines 210-215) — so two
passes run concurrently, violating serialization. -/
theorem C2_duplicate_restart_schedules_two_passes :
    v1PassStarts 1000 1 = [6000, 6000] := rfl
